import Mathlib

/-!
Shallow embedding of `src/browser-test/dcTestServer.cpp` (kinesis-webrtc
data-channel test server): the statistics ledger, the data-channel
callbacks, the scenario configurator, and the HTTP offer/reset handlers.
External SDK calls (createDataChannel, dataChannelSend, SDP handling,
freePeerConnection) are modelled by Boolean status oracles passed in as
parameters; freePeerConnection follows the SDK contract of clearing the
handle it is given.
-/

namespace DcTestServer

/-- MAX_TEST_CHANNELS from dcTestServer.cpp line 18. -/
def MAX_TEST_CHANNELS : Nat := 16

/-- ChannelStats struct (lines 21-27): per-channel traffic counters. -/
structure ChannelStats where
  name : String
  messagesReceived : Nat
  messagesSent : Nat
  bytesReceived : Nat
  opened : Bool
deriving DecidableEq

/-- Replace the element at index i (out-of-range indices leave the list alone);
models an in-place mutation through a reference into the stats vector. -/
def modifyIdx {α : Type} : List α → Nat → (α → α) → List α
  | [], _, _ => []
  | x :: xs, 0, f => f x :: xs
  | x :: xs, n+1, f => x :: modifyIdx xs n f

/-- Index of the first stats entry with the given name (the linear scan in
findOrCreateStats, lines 62-64). -/
def findStatsIdx : List ChannelStats → String → Option Nat
  | [], _ => none
  | s :: rest, name =>
      if s.name = name then some 0 else (findStatsIdx rest name).map (· + 1)

/-- The zero-initialised entry push_back'ed by findOrCreateStats (line 65). -/
def newStats (name : String) : ChannelStats :=
  { name := name, messagesReceived := 0, messagesSent := 0, bytesReceived := 0, opened := false }

/-- findOrCreateStats (lines 60-67): returns the updated stats vector and the
index of the entry for `name` (the C++ returns a pointer to that entry). -/
def findOrCreateStats (stats : List ChannelStats) (name : String) : List ChannelStats × Nat :=
  match findStatsIdx stats name with
  | some i => (stats, i)
  | none => (stats ++ [newStats name], stats.length)

/-- Lookup of the entry for a channel name (read-only helper for statements). -/
def statsFor : List ChannelStats → String → Option ChannelStats
  | [], _ => none
  | s :: rest, name => if s.name = name then some s else statsFor rest name

/-- One dataChannelSend invocation: the buffer argument is `none` for a NULL
pointer, `some bytes` otherwise; `length` is the messageLen argument. -/
structure SendCall where
  isBinary : Bool
  buffer : Option (List Nat)
  length : Nat
deriving DecidableEq

/-- onDataChannelMessageEcho (lines 98-114). `sendOk` is the status returned
by the external dataChannelSend; `pMessage` is the received buffer (`none`
models a NULL pointer). Returns the updated stats and the send call issued. -/
def onDataChannelMessageEcho (sendOk : Bool) (stats : List ChannelStats) (chName : String)
    (isBinary : Bool) (pMessage : Option (List Nat)) (messageLen : Nat) :
    List ChannelStats × SendCall :=
  let p := findOrCreateStats stats chName
  let stats2 := modifyIdx p.1 p.2 (fun s =>
    { s with messagesReceived := s.messagesReceived + 1,
             bytesReceived := s.bytesReceived + messageLen })
  let sendPtr : Option (List Nat) := if messageLen = 0 then some [0] else pMessage
  let call : SendCall := { isBinary := isBinary, buffer := sendPtr, length := messageLen }
  let stats3 :=
    if sendOk then modifyIdx stats2 p.2 (fun s => { s with messagesSent := s.messagesSent + 1 })
    else stats2
  (stats3, call)

/-- The i-th burst reply text, snprintf "server-msg-%d" (line 129). -/
def serverMsg (i : Nat) : String := "server-msg-" ++ toString i

/-- onDataChannelMessageBurst (lines 117-136). `sendOk i` is the status of the
i-th dataChannelSend in the loop. Returns the updated stats and the list of
message texts handed to dataChannelSend. -/
def onDataChannelMessageBurst (sendOk : Nat → Bool) (stats : List ChannelStats)
    (chName : String) (messageLen : Nat) : List ChannelStats × List String :=
  let p := findOrCreateStats stats chName
  let stats2 := modifyIdx p.1 p.2 (fun s =>
    { s with messagesReceived := s.messagesReceived + 1,
             bytesReceived := s.bytesReceived + messageLen })
  if 5 ≤ messageLen then
    let stats3 := (List.range 50).foldl
      (fun st i =>
        if sendOk i then modifyIdx st p.2 (fun s => { s with messagesSent := s.messagesSent + 1 })
        else st) stats2
    (stats3, (List.range 50).map serverMsg)
  else (stats2, [])

/-- One outbound message handed to dataChannelSend by an open callback. -/
inductive OutMessage
  | text (s : String)
  | binary (bytes : List Nat)
deriving DecidableEq

/-- The 1024-byte ramp pattern sent by server-sends-binary (lines 152-153). -/
def binaryPattern : List Nat := (List.range 1024).map (fun i => i % 256)

/-- The i-th burst-on-open text, snprintf "server-burst-%d" (line 160). -/
def serverBurstMsg (i : Nat) : String := "server-burst-" ++ toString i

/-- onServerChannelOpen (lines 139-173). Dispatches on the session's
currentTest; `sendOk i` is the status of the i-th dataChannelSend. Returns
the updated stats and the messages handed to dataChannelSend. -/
def onServerChannelOpen (currentTest : String) (sendOk : Nat → Bool)
    (stats : List ChannelStats) (chName : String) : List ChannelStats × List OutMessage :=
  let p := findOrCreateStats stats chName
  let stats2 := modifyIdx p.1 p.2 (fun s => { s with opened := true })
  if currentTest = "server-creates-dc" then
    (modifyIdx stats2 p.2 (fun s => { s with messagesSent := s.messagesSent + 1 }),
     [OutMessage.text "hello from server"])
  else if currentTest = "server-sends-binary" then
    (modifyIdx stats2 p.2 (fun s => { s with messagesSent := s.messagesSent + 1 }),
     [OutMessage.binary binaryPattern])
  else if currentTest = "burst" then
    ((List.range 50).foldl
       (fun st i =>
         if sendOk i then modifyIdx st p.2 (fun s => { s with messagesSent := s.messagesSent + 1 })
         else st) stats2,
     (List.range 50).map (fun i => OutMessage.text (serverBurstMsg i)))
  else (stats2, [])

/-- Message handler a channel gets bound to via dataChannelOnMessage. -/
inductive MsgHandler
  | echo
  | burst
deriving DecidableEq

/-- onDataChannel (lines 176-185), the remote-channel notification: marks the
entry opened and binds the echo message handler (line 184). -/
def onDataChannel (stats : List ChannelStats) (chName : String) :
    List ChannelStats × MsgHandler :=
  let p := findOrCreateStats stats chName
  (modifyIdx p.1 p.2 (fun s => { s with opened := true }), MsgHandler.echo)

/-- RtcDataChannelInit fields set by the configurator (lines 213-234). -/
structure RtcDataChannelInit where
  ordered : Bool
  maxRetransmits : Option Nat
  maxPacketLifeTime : Option Nat
deriving DecidableEq

/-- A server-created channel as registered by configureForTest::createChannel
(lines 194-207): its name, creation options, and the callbacks bound to it. -/
structure CreatedChannel where
  name : String
  init : Option RtcDataChannelInit
  onOpenBound : Bool
  msgHandler : MsgHandler
deriving DecidableEq

/-- State threaded through one configureForTest run: the session's
serverChannelCount, the successfully created channels (in creation order),
and how many createDataChannel calls were attempted so far (the index into
the status oracle). -/
structure CfgState where
  serverChannelCount : Nat
  createdChannels : List CreatedChannel
  attempts : Nat
deriving DecidableEq

/-- The createChannel lambda (lines 194-207): drops the request when the
capacity is reached (before calling the SDK); otherwise consults the
createDataChannel status oracle, and on success stores the channel, binds
onServerChannelOpen and onDataChannelMessageEcho, and bumps the count. -/
def createChannel (createOk : Nat → Bool) (st : CfgState) (name : String)
    (init : Option RtcDataChannelInit) : CfgState :=
  if MAX_TEST_CHANNELS ≤ st.serverChannelCount then st
  else if createOk st.attempts then
    { serverChannelCount := st.serverChannelCount + 1,
      createdChannels := st.createdChannels ++
        [{ name := name, init := init, onOpenBound := true, msgHandler := MsgHandler.echo }],
      attempts := st.attempts + 1 }
  else { st with attempts := st.attempts + 1 }

/-- Channel name snprintf "srv-%d" (line 239). -/
def srvName (i : Nat) : String := "srv-" ++ toString i

/-- The scenario dispatch of configureForTest (lines 209-253), producing the
server-channel state from a zeroed count (line 191 resets the count first). -/
def configureChannels (createOk : Nat → Bool) (testName : String) : CfgState :=
  let st0 : CfgState := { serverChannelCount := 0, createdChannels := [], attempts := 0 }
  if testName = "server-creates-dc" then
    createChannel createOk st0 "server-channel" none
  else if testName = "server-creates-unordered" then
    createChannel createOk st0 "unordered-srv"
      (some { ordered := false, maxRetransmits := none, maxPacketLifeTime := none })
  else if testName = "server-creates-maxretransmits" then
    createChannel createOk st0 "maxretransmit-srv"
      (some { ordered := true, maxRetransmits := some 3, maxPacketLifeTime := none })
  else if testName = "server-creates-maxlifetime" then
    createChannel createOk st0 "maxlifetime-srv"
      (some { ordered := true, maxRetransmits := none, maxPacketLifeTime := some 1000 })
  else if testName = "server-creates-multi" then
    (List.range 5).foldl (fun st i => createChannel createOk st (srvName i) none) st0
  else if testName = "bidirectional" then
    createChannel createOk st0 "server-ch" none
  else if testName = "server-sends-binary" then
    createChannel createOk st0 "binary-srv" none
  else if testName = "burst" then
    createChannel createOk st0 "burst-srv" none
  else st0

/-- RTC_PEER_CONNECTION_STATE as used by the session. -/
inductive RtcConnState
  | stateNone
  | stateNew
  | connecting
  | connected
  | disconnected
  | stateFailed
  | closed
deriving DecidableEq

/-- TestSession (lines 29-56), restricted to the fields the handlers read or
write. The peer-connection handle is `some ()` when non-NULL. serverChannels
mirrors the entries of the fixed array written by the latest configure run
(the C++ array is never read back, only written). -/
structure Session where
  pPeerConnection : Option Unit
  connectionState : RtcConnState
  iceGatheringDone : Bool
  currentTest : String
  serverChannelCount : Nat
  serverChannels : List CreatedChannel
  channelStats : List ChannelStats
deriving DecidableEq

/-- configureForTest (lines 189-253) at the session level: records the test
name, resets the count, and installs the channels created by the dispatch. -/
def configureForTest (createOk : Nat → Bool) (sess : Session) (testName : String) : Session :=
  let cfg := configureChannels createOk testName
  { sess with currentTest := testName,
              serverChannelCount := cfg.serverChannelCount,
              serverChannels := cfg.createdChannels }

/-- An HTTP response: status code and body. -/
structure HttpResponse where
  status : Nat
  body : String
deriving DecidableEq

/-- Error JSON bodies, res.set_content of a JSON object with an error key. -/
def errBody (msg : String) : String := "\x7b\"error\": \"" ++ msg ++ "\"\x7d"

/-- Outcomes of the external SDK calls made by one handleOffer run:
MEMALLOC, deserializeSessionDescriptionInit, createPeerConnection,
createDataChannel (indexed per attempt), setRemoteDescription,
setLocalDescription, whether the ICE-candidate callback signals completion
before the 10-second polling deadline, createAnswer, and
serializeSessionDescriptionInit together with the serialized answer. -/
structure OfferEnv where
  memallocOk : Bool
  deserializeOk : Bool
  createPcOk : Bool
  createChannelOk : Nat → Bool
  setRemoteOk : Bool
  setLocalOk : Bool
  iceSignaled : Bool
  createAnswerOk : Bool
  serializeOk : Bool
  answerJson : String

/-- handleOffer (lines 257-372). Modelled from the spec: the external
freePeerConnection releases the handle it is passed (the session handle
becomes absent on every abort path that calls it). The ICE wait polls the
iceGatheringDone flag; the flag ends up true when it already was, or when
the candidate callback signals completion within the deadline. -/
def handleOffer (env : OfferEnv) (sess : Session) (testParam : Option String) :
    Session × HttpResponse :=
  let testName := match testParam with | some t => t | none => "echo"
  if sess.pPeerConnection.isSome then
    (sess, { status := 409, body := errBody "Already connected" })
  else if env.memallocOk = false then
    (sess, { status := 500, body := errBody "Memory allocation failed" })
  else if env.deserializeOk = false then
    (sess, { status := 400, body := errBody "Invalid SDP" })
  else if env.createPcOk = false then
    (sess, { status := 500, body := errBody "Failed to create peer connection" })
  else
    let s1 := { sess with pPeerConnection := some () }
    let s2 := configureForTest env.createChannelOk s1 testName
    if env.setRemoteOk = false then
      ({ s2 with pPeerConnection := none },
       { status := 500, body := errBody "Failed to set remote description" })
    else if env.setLocalOk = false then
      ({ s2 with pPeerConnection := none },
       { status := 500, body := errBody "Failed to set local description" })
    else
      let s3 := { s2 with iceGatheringDone := s2.iceGatheringDone || env.iceSignaled }
      if s3.iceGatheringDone = false then
        ({ s3 with pPeerConnection := none },
         { status := 504, body := errBody "ICE gathering timeout" })
      else if env.createAnswerOk = false then
        ({ s3 with pPeerConnection := none },
         { status := 500, body := errBody "Failed to create answer" })
      else if env.serializeOk = false then
        ({ s3 with pPeerConnection := none },
         { status := 500, body := errBody "Failed to serialize answer" })
      else
        (s3, { status := 200, body := env.answerJson })

/-- handleReset (lines 374-392): frees the handle when present, clears the
flag, state, test name, count, and (under the mutex) the stats vector; the
serverChannels array contents are left as they are. -/
def handleReset (sess : Session) : Session × HttpResponse :=
  let s1 := match sess.pPeerConnection with
    | some _ => { sess with pPeerConnection := none }
    | none => sess
  ({ s1 with iceGatheringDone := false,
             connectionState := RtcConnState.stateNone,
             currentTest := "",
             serverChannelCount := 0,
             channelStats := [] },
   { status := 200, body := "\x7b\"status\": \"ok\"\x7d" })

/-- The fields of a stats entry a callback mutates. -/
inductive StatField
  | fMessagesReceived
  | fMessagesSent
  | fBytesReceived
  | fOpened
deriving DecidableEq

/-- Events on the statsMutex and the ledger, in program order: lock acquire
and release (the lock_guard in findOrCreateStats, lines 61-66), the
lookup-or-insert done inside that scope, and each mutation of a stats entry
performed by the callers through the returned pointer. -/
inductive LockEvent
  | acquire
  | release
  | lookupOrCreate (name : String)
  | mutateStat (f : StatField)
deriving DecidableEq

/-- True on the ledger-entry mutation events. -/
def LockEvent.isMutateStat : LockEvent → Bool
  | LockEvent.mutateStat _ => true
  | _ => false

/-- True on the lookup-or-insert event. -/
def LockEvent.isLookup : LockEvent → Bool
  | LockEvent.lookupOrCreate _ => true
  | _ => false

/-- Pair every event with whether the statsMutex is held when it runs
(acquire runs lock-free, release runs while held). -/
def withHeld : Bool → List LockEvent → List (LockEvent × Bool)
  | _, [] => []
  | _, LockEvent.acquire :: ts => (LockEvent.acquire, false) :: withHeld true ts
  | _, LockEvent.release :: ts => (LockEvent.release, true) :: withHeld false ts
  | h, e :: ts => (e, h) :: withHeld h ts

/-- Every ledger-entry mutation in the trace runs while the mutex is held. -/
def statMutationsHeld (t : List LockEvent) : Prop :=
  ∀ p ∈ withHeld false t, p.1.isMutateStat = true → p.2 = true

/-- Every ledger-entry mutation in the trace runs after the mutex was
released. -/
def statMutationsUnlocked (t : List LockEvent) : Prop :=
  ∀ p ∈ withHeld false t, p.1.isMutateStat = true → p.2 = false

/-- Every ledger lookup-or-insert in the trace runs while the mutex is held. -/
def lookupsHeld (t : List LockEvent) : Prop :=
  ∀ p ∈ withHeld false t, p.1.isLookup = true → p.2 = true

/-- Mutex trace of findOrCreateStats (lines 60-67): the lock_guard spans the
whole function body, so the scan/push_back happens inside the scope and the
lock is released when the function returns its pointer. -/
def findOrCreateStatsTrace (name : String) : List LockEvent :=
  [LockEvent.acquire, LockEvent.lookupOrCreate name, LockEvent.release]

/-- Mutex trace of onDataChannelMessageEcho (lines 98-114): the counter
increments happen on the returned pointer after findOrCreateStats returned. -/
def echoTrace (name : String) (sendOk : Bool) : List LockEvent :=
  findOrCreateStatsTrace name ++
  [LockEvent.mutateStat StatField.fMessagesReceived,
   LockEvent.mutateStat StatField.fBytesReceived] ++
  (if sendOk then [LockEvent.mutateStat StatField.fMessagesSent] else [])

/-- Mutex trace of onDataChannelMessageBurst (lines 117-136). -/
def burstMsgTrace (name : String) (messageLen : Nat) (sendOk : Nat → Bool) : List LockEvent :=
  findOrCreateStatsTrace name ++
  [LockEvent.mutateStat StatField.fMessagesReceived,
   LockEvent.mutateStat StatField.fBytesReceived] ++
  (if 5 ≤ messageLen then
     ((List.range 50).filter sendOk).map (fun _ => LockEvent.mutateStat StatField.fMessagesSent)
   else [])

/-- Mutex trace of onServerChannelOpen (lines 139-173). -/
def serverOpenTrace (name currentTest : String) (sendOk : Nat → Bool) : List LockEvent :=
  findOrCreateStatsTrace name ++ [LockEvent.mutateStat StatField.fOpened] ++
  (if currentTest = "server-creates-dc" then [LockEvent.mutateStat StatField.fMessagesSent]
   else if currentTest = "server-sends-binary" then [LockEvent.mutateStat StatField.fMessagesSent]
   else if currentTest = "burst" then
     ((List.range 50).filter sendOk).map (fun _ => LockEvent.mutateStat StatField.fMessagesSent)
   else [])

/-- Mutex trace of onDataChannel (lines 176-185). -/
def dataChannelTrace (name : String) : List LockEvent :=
  findOrCreateStatsTrace name ++ [LockEvent.mutateStat StatField.fOpened]

/-- Run onServerChannelOpen over a list of channel names in order (the opens
delivered by the transport for each server channel). -/
def openAll (currentTest : String) (sendOk : Nat → Bool) (stats : List ChannelStats)
    (names : List String) : List ChannelStats :=
  names.foldl (fun st n => (onServerChannelOpen currentTest sendOk st n).1) stats

/-- The scenario names matched by the configureForTest dispatch. -/
def recognizedTests : List String :=
  ["server-creates-dc", "server-creates-unordered", "server-creates-maxretransmits",
   "server-creates-maxlifetime", "server-creates-multi", "bidirectional",
   "server-sends-binary", "burst"]

/-- Environment where every external call succeeds and ICE completes. -/
def allOkEnv : OfferEnv :=
  { memallocOk := true, deserializeOk := true, createPcOk := true,
    createChannelOk := fun _ => true, setRemoteOk := true, setLocalOk := true,
    iceSignaled := true, createAnswerOk := true, serializeOk := true,
    answerJson := "answer-sdp" }

/-- Environment where ICE gathering never signals completion in time. -/
def iceTimeoutEnv : OfferEnv := { allOkEnv with iceSignaled := false }

/-- The session as initialised in main (lines 473-479). -/
def freshSession : Session :=
  { pPeerConnection := none, connectionState := RtcConnState.stateNone,
    iceGatheringDone := false, currentTest := "", serverChannelCount := 0,
    serverChannels := [], channelStats := [] }

/-- A session with an active peer connection. -/
def activeSession : Session := { freshSession with pPeerConnection := some () }

/-! Theorems about the claims. -/

/-- C1, counterexample: echoing a zero-length message issues a send whose
length argument is 0, not a 1-byte payload — the claim that the resend
carries a 1-byte payload is false at this input. -/
theorem C1_counterexample :
    (onDataChannelMessageEcho true [] "browser-ch" false (some []) 0).2.length = 0 ∧
    ¬ (onDataChannelMessageEcho true [] "browser-ch" false (some []) 0).2.length = 1 := by
  constructor
  · rfl
  · decide

/-- C1, amended: for every invocation of the echo callback with a zero-length
payload, the resend is performed with a non-null one-byte buffer holding a
single zero byte while the length argument stays 0, so the send never
receives a null buffer. -/
theorem C1_echo_zero_length (sendOk : Bool) (stats : List ChannelStats) (ch : String)
    (isBinary : Bool) (pMessage : Option (List Nat)) :
    (onDataChannelMessageEcho sendOk stats ch isBinary pMessage 0).2.buffer = some [0] ∧
    (onDataChannelMessageEcho sendOk stats ch isBinary pMessage 0).2.buffer ≠ none ∧
    (onDataChannelMessageEcho sendOk stats ch isBinary pMessage 0).2.length = 0 := by
  refine ⟨rfl, by simp [onDataChannelMessageEcho], rfl⟩

/-- C2: whenever the burst message callback sees an inbound message of length
at least 5, it hands exactly the 50 texts server-msg-0 .. server-msg-49 to
dataChannelSend, in order. -/
theorem C2_burst_sends_fifty (sendOk : Nat → Bool) (stats : List ChannelStats)
    (ch : String) (len : Nat) (h : 5 ≤ len) :
    (onDataChannelMessageBurst sendOk stats ch len).2 =
      (List.range 50).map (fun i => "server-msg-" ++ toString i) ∧
    (onDataChannelMessageBurst sendOk stats ch len).2.length = 50 := by
  unfold onDataChannelMessageBurst
  simp [h, serverMsg]

/-- C2 witness at a concrete 11-byte trigger message. -/
theorem C2_burst_sends_fifty_witness :
    (onDataChannelMessageBurst (fun _ => true) [] "burst-ch" 11).2 =
      (List.range 50).map (fun i => "server-msg-" ++ toString i) ∧
    (onDataChannelMessageBurst (fun _ => true) [] "burst-ch" 11).2.length = 50 :=
  C2_burst_sends_fifty (fun _ => true) [] "burst-ch" 11 (by decide)

/-- C4: an offer arriving while the peer-connection handle is present is
answered with HTTP 409 and the error JSON body, and the session — every
field of it — is returned unchanged. -/
theorem C4_second_offer_conflict (env : OfferEnv) (sess : Session) (testParam : Option String)
    (h : sess.pPeerConnection.isSome = true) :
    handleOffer env sess testParam =
      (sess, { status := 409, body := errBody "Already connected" }) := by
  unfold handleOffer
  simp [h]

/-- C4 witness on a concrete active session. -/
theorem C4_second_offer_conflict_witness :
    handleOffer allOkEnv activeSession (some "burst") =
      (activeSession, { status := 409, body := errBody "Already connected" }) :=
  C4_second_offer_conflict allOkEnv activeSession (some "burst") rfl

/-- C8: for every test name outside the recognized scenario set the
configurator creates no server channels and leaves the count at zero, and
every remotely-initiated channel is bound to the echo message handler. -/
theorem C8_unrecognized_defaults_to_echo (createOk : Nat → Bool) (testName : String)
    (stats : List ChannelStats) (ch : String) (h : testName ∉ recognizedTests) :
    (configureChannels createOk testName).createdChannels = [] ∧
    (configureChannels createOk testName).serverChannelCount = 0 ∧
    (onDataChannel stats ch).2 = MsgHandler.echo := by
  simp only [recognizedTests, List.mem_cons, List.not_mem_nil, or_false, not_or] at h
  obtain ⟨h1, h2, h3, h4, h5, h6, h7, h8⟩ := h
  unfold configureChannels
  simp [h1, h2, h3, h4, h5, h6, h7, h8]
  rfl

/-- C8 witness at the unmatched name large-echo. -/
theorem C8_unrecognized_defaults_to_echo_witness :
    (configureChannels (fun _ => true) "large-echo").createdChannels = [] ∧
    (configureChannels (fun _ => true) "large-echo").serverChannelCount = 0 ∧
    (onDataChannel [] "browser-ch").2 = MsgHandler.echo :=
  C8_unrecognized_defaults_to_echo (fun _ => true) "large-echo" [] "browser-ch" (by decide)

/-- C9: reset, from any session state, clears the handle, the ICE flag, the
connection state, the test name, the channel count and the ledger, and
responds 200 with the ok JSON body. -/
theorem C9_reset_clears_session (sess : Session) :
    handleReset sess =
      ({ sess with pPeerConnection := none, iceGatheringDone := false,
                   connectionState := RtcConnState.stateNone, currentTest := "",
                   serverChannelCount := 0, channelStats := [] },
       { status := 200, body := "\x7b\"status\": \"ok\"\x7d" }) := by
  unfold handleReset
  rcases sess with ⟨pc, cs, ice, ct, cnt, chans, stats⟩
  cases pc <;> rfl

/-- createChannel never pushes the count past the capacity. -/
lemma createChannel_count_le (createOk : Nat → Bool) (st : CfgState) (name : String)
    (init : Option RtcDataChannelInit) (h : st.serverChannelCount ≤ MAX_TEST_CHANNELS) :
    (createChannel createOk st name init).serverChannelCount ≤ MAX_TEST_CHANNELS := by
  unfold createChannel
  split
  · exact h
  · split
    · simp only [MAX_TEST_CHANNELS] at *
      omega
    · exact h

/-- The multi-channel creation loop preserves the capacity bound. -/
lemma foldl_createChannel_count_le (createOk : Nat → Bool) (l : List Nat) :
    ∀ st : CfgState, st.serverChannelCount ≤ MAX_TEST_CHANNELS →
      ((l.foldl (fun s i => createChannel createOk s (srvName i) none) st).serverChannelCount ≤
        MAX_TEST_CHANNELS) := by
  induction l with
  | nil => intro st h; exact h
  | cons x xs ih =>
      intro st h
      exact ih _ (createChannel_count_le createOk st (srvName x) none h)

/-- The configure dispatch never produces more than MAX_TEST_CHANNELS. -/
lemma configureChannels_count_le (createOk : Nat → Bool) (testName : String) :
    (configureChannels createOk testName).serverChannelCount ≤ MAX_TEST_CHANNELS := by
  unfold configureChannels
  have h0 : (0 : Nat) ≤ MAX_TEST_CHANNELS := Nat.zero_le _
  repeat' split
  all_goals
    first
      | exact createChannel_count_le _ _ _ _ h0
      | exact foldl_createChannel_count_le _ _ _ h0
      | exact h0

/-- C6: after any configure operation the session's server-channel count is
at most the capacity of 16, and a creation request issued when the count has
already reached the capacity leaves the configuration state — count
included — completely unchanged (the request is dropped without error). -/
theorem C6_channel_capacity (createOk : Nat → Bool) (sess : Session) (testName : String)
    (st : CfgState) (name : String) (init : Option RtcDataChannelInit)
    (h : MAX_TEST_CHANNELS ≤ st.serverChannelCount) :
    (configureForTest createOk sess testName).serverChannelCount ≤ MAX_TEST_CHANNELS ∧
    createChannel createOk st name init = st := by
  constructor
  · exact configureChannels_count_le createOk testName
  · unfold createChannel
    simp [h]

/-- C6 witness: a configure run plus a creation request at full capacity. -/
theorem C6_channel_capacity_witness :
    (configureForTest (fun _ => true) freshSession "server-creates-multi").serverChannelCount ≤
      MAX_TEST_CHANNELS ∧
    createChannel (fun _ => true)
      { serverChannelCount := 16, createdChannels := [], attempts := 16 } "extra" none =
      { serverChannelCount := 16, createdChannels := [], attempts := 16 } :=
  C6_channel_capacity (fun _ => true) freshSession "server-creates-multi"
    { serverChannelCount := 16, createdChannels := [], attempts := 16 } "extra" none (by decide)

/-- With no live peer-connection handle, handleOffer never answers 409: every
other exit of the handler carries status 200, 400, 500 or 504. -/
lemma handleOffer_no_conflict (env : OfferEnv) (sess : Session) (testParam : Option String)
    (h : sess.pPeerConnection = none) :
    (handleOffer env sess testParam).2.status ≠ 409 := by
  unfold handleOffer
  simp only [h, Option.isSome_none, Bool.false_eq_true, if_false]
  repeat' split
  all_goals simp

/-- C5: when every native call up to the local description succeeds but the
ICE-done flag is still unset at the 10-second polling deadline, the offer
handler answers 504 with the error JSON body and releases the
peer-connection handle, and a subsequent offer against the resulting session
is never rejected with 409. -/
theorem C5_ice_timeout_releases_handle (env env2 : OfferEnv) (sess : Session)
    (testParam testParam2 : Option String)
    (hpc : sess.pPeerConnection = none) (hm : env.memallocOk = true)
    (hd : env.deserializeOk = true) (hc : env.createPcOk = true)
    (hr : env.setRemoteOk = true) (hl : env.setLocalOk = true)
    (hice0 : sess.iceGatheringDone = false) (hice : env.iceSignaled = false) :
    (handleOffer env sess testParam).2 =
      { status := 504, body := errBody "ICE gathering timeout" } ∧
    (handleOffer env sess testParam).1.pPeerConnection = none ∧
    (handleOffer env2 (handleOffer env sess testParam).1 testParam2).2.status ≠ 409 := by
  have hres : (handleOffer env sess testParam).1.pPeerConnection = none ∧
      (handleOffer env sess testParam).2 =
        { status := 504, body := errBody "ICE gathering timeout" } := by
    unfold handleOffer
    simp [hpc, hm, hd, hc, hr, hl, hice, configureForTest, hice0]
  exact ⟨hres.2, hres.1, handleOffer_no_conflict env2 _ testParam2 hres.1⟩

/-- C5 witness: a fresh session and an environment whose ICE gathering never
signals completion. -/
theorem C5_ice_timeout_releases_handle_witness :
    (handleOffer iceTimeoutEnv freshSession (some "echo")).2 =
      { status := 504, body := errBody "ICE gathering timeout" } ∧
    (handleOffer iceTimeoutEnv freshSession (some "echo")).1.pPeerConnection = none ∧
    (handleOffer allOkEnv (handleOffer iceTimeoutEnv freshSession (some "echo")).1
        (some "echo")).2.status ≠ 409 :=
  C5_ice_timeout_releases_handle iceTimeoutEnv allOkEnv freshSession (some "echo") (some "echo")
    rfl rfl rfl rfl rfl rfl rfl rfl

/-- The per-success increment loop on a single-entry ledger adds exactly the
number of successful sends to messagesSent. -/
lemma foldl_incSent (sendOk : Nat → Bool) :
    ∀ (l : List Nat) (e : ChannelStats),
      l.foldl
        (fun st i =>
          if sendOk i then
            modifyIdx st 0 (fun s => { s with messagesSent := s.messagesSent + 1 })
          else st) [e] =
      [{ e with messagesSent := e.messagesSent + (l.filter sendOk).length }] := by
  intro l
  induction l with
  | nil => intro e; simp
  | cons x xs ih =>
      intro e
      by_cases hx : sendOk x = true
      · simp only [List.foldl_cons, hx, if_true, modifyIdx, List.filter_cons,
          List.length_cons, ih]
        congr 2
        omega
      · simp only [Bool.not_eq_true] at hx
        simp [List.foldl_cons, hx, List.filter_cons, ih]

/-- C10: on the server-channel open callback the server-creates-dc and
server-sends-binary scenarios bump messagesSent by exactly 1 no matter what
status the unsolicited send returns, while the echo message path bumps it
only on a successful send and the burst open path bumps it once per
successful send of the 50. -/
theorem C10_sent_counter_policy (sendOk : Nat → Bool) (ok : Bool) (ch : String)
    (isBinary : Bool) (pMessage : Option (List Nat)) (len : Nat) :
    (statsFor (onServerChannelOpen "server-creates-dc" sendOk [] ch).1 ch).map
        ChannelStats.messagesSent = some 1 ∧
    (statsFor (onServerChannelOpen "server-sends-binary" sendOk [] ch).1 ch).map
        ChannelStats.messagesSent = some 1 ∧
    (statsFor (onDataChannelMessageEcho ok [] ch isBinary pMessage len).1 ch).map
        ChannelStats.messagesSent = some (if ok then 1 else 0) ∧
    (statsFor (onServerChannelOpen "burst" sendOk [] ch).1 ch).map
        ChannelStats.messagesSent = some ((List.range 50).filter sendOk).length := by
  refine ⟨?_, ?_, ?_, ?_⟩
  · simp [onServerChannelOpen, findOrCreateStats, findStatsIdx, newStats, modifyIdx, statsFor]
  · simp [onServerChannelOpen, findOrCreateStats, findStatsIdx, newStats, modifyIdx, statsFor]
  · cases ok <;>
      simp [onDataChannelMessageEcho, findOrCreateStats, findStatsIdx, newStats, modifyIdx,
        statsFor]
  · simp [onServerChannelOpen, findOrCreateStats, findStatsIdx, newStats, modifyIdx,
      foldl_incSent, statsFor]

/-- C7: when every createDataChannel call succeeds, configuring for
server-creates-multi creates exactly 5 server channels named srv-0 .. srv-4,
and once each of them has fired its open callback the ledger holds exactly
those 5 entries, each marked opened. -/
theorem C7_multi_creates_five (createOk : Nat → Bool) (sendOk : Nat → Bool)
    (h : ∀ i, createOk i = true) :
    (configureChannels createOk "server-creates-multi").createdChannels.map
        CreatedChannel.name = ["srv-0", "srv-1", "srv-2", "srv-3", "srv-4"] ∧
    (configureChannels createOk "server-creates-multi").serverChannelCount = 5 ∧
    openAll "server-creates-multi" sendOk [] ["srv-0", "srv-1", "srv-2", "srv-3", "srv-4"] =
      [{ name := "srv-0", messagesReceived := 0, messagesSent := 0, bytesReceived := 0,
         opened := true },
       { name := "srv-1", messagesReceived := 0, messagesSent := 0, bytesReceived := 0,
         opened := true },
       { name := "srv-2", messagesReceived := 0, messagesSent := 0, bytesReceived := 0,
         opened := true },
       { name := "srv-3", messagesReceived := 0, messagesSent := 0, bytesReceived := 0,
         opened := true },
       { name := "srv-4", messagesReceived := 0, messagesSent := 0, bytesReceived := 0,
         opened := true }] := by
  have hc : createOk = fun _ => true := funext h
  subst hc
  refine ⟨by decide, by decide, ?_⟩
  simp [openAll, onServerChannelOpen, findOrCreateStats, findStatsIdx, newStats, modifyIdx]

/-- C7 witness with the all-success creation oracle. -/
theorem C7_multi_creates_five_witness :
    (configureChannels (fun _ => true) "server-creates-multi").createdChannels.map
        CreatedChannel.name = ["srv-0", "srv-1", "srv-2", "srv-3", "srv-4"] ∧
    (configureChannels (fun _ => true) "server-creates-multi").serverChannelCount = 5 ∧
    openAll "server-creates-multi" (fun _ => true) []
        ["srv-0", "srv-1", "srv-2", "srv-3", "srv-4"] =
      [{ name := "srv-0", messagesReceived := 0, messagesSent := 0, bytesReceived := 0,
         opened := true },
       { name := "srv-1", messagesReceived := 0, messagesSent := 0, bytesReceived := 0,
         opened := true },
       { name := "srv-2", messagesReceived := 0, messagesSent := 0, bytesReceived := 0,
         opened := true },
       { name := "srv-3", messagesReceived := 0, messagesSent := 0, bytesReceived := 0,
         opened := true },
       { name := "srv-4", messagesReceived := 0, messagesSent := 0, bytesReceived := 0,
         opened := true }] :=
  C7_multi_creates_five (fun _ => true) (fun _ => true) (fun _ => rfl)

/-- A stretch of trace made only of entry mutations never touches the lock,
so the held flag is constant across it. -/
lemma withHeld_mutates (b : Bool) :
    ∀ l : List LockEvent, (∀ e ∈ l, e.isMutateStat = true) →
      withHeld b l = l.map (fun e => (e, b)) := by
  intro l
  induction l with
  | nil => intro _; rfl
  | cons e ts ih =>
      intro h
      have he := h e (List.mem_cons_self e ts)
      cases e with
      | acquire => simp [LockEvent.isMutateStat] at he
      | release => simp [LockEvent.isMutateStat] at he
      | lookupOrCreate n => simp [LockEvent.isMutateStat] at he
      | mutateStat f =>
          simp [withHeld, ih (fun x hx => h x (List.mem_cons_of_mem _ hx))]

/-- Held flags along a callback trace: the lookup runs held, everything after
the findOrCreateStats return runs lock-free. -/
lemma withHeld_callback (name : String) (rest : List LockEvent)
    (h : ∀ e ∈ rest, e.isMutateStat = true) :
    withHeld false (findOrCreateStatsTrace name ++ rest) =
      (LockEvent.acquire, false) :: (LockEvent.lookupOrCreate name, true) ::
      (LockEvent.release, true) :: rest.map (fun e => (e, false)) := by
  have hstep : withHeld false (findOrCreateStatsTrace name ++ rest) =
      (LockEvent.acquire, false) :: (LockEvent.lookupOrCreate name, true) ::
      (LockEvent.release, true) :: withHeld false rest := rfl
  rw [hstep, withHeld_mutates false rest h]

/-- In any callback trace (lock-scoped lookup followed by pointer mutations)
the lookup is under the lock and every stat mutation runs unlocked. -/
lemma callback_locking (name : String) (rest : List LockEvent)
    (h : ∀ e ∈ rest, e.isMutateStat = true) :
    lookupsHeld (findOrCreateStatsTrace name ++ rest) ∧
    statMutationsUnlocked (findOrCreateStatsTrace name ++ rest) := by
  unfold lookupsHeld statMutationsUnlocked
  rw [withHeld_callback name rest h]
  constructor
  · intro p hp hl
    simp only [List.mem_cons, List.mem_map] at hp
    rcases hp with rfl | rfl | rfl | ⟨e, he, rfl⟩
    · simp [LockEvent.isLookup] at hl
    · rfl
    · simp [LockEvent.isLookup] at hl
    · have hm := h e he
      cases e <;> simp_all [LockEvent.isLookup, LockEvent.isMutateStat]
  · intro p hp hm
    simp only [List.mem_cons, List.mem_map] at hp
    rcases hp with rfl | rfl | rfl | ⟨e, he, rfl⟩
    · simp [LockEvent.isMutateStat] at hm
    · simp [LockEvent.isMutateStat] at hm
    · simp [LockEvent.isMutateStat] at hm
    · rfl

/-- The post-lookup events of the echo callback are all entry mutations. -/
lemma echo_rest_mutates (ok : Bool) :
    ∀ e ∈ ([LockEvent.mutateStat StatField.fMessagesReceived,
            LockEvent.mutateStat StatField.fBytesReceived] ++
           (if ok then [LockEvent.mutateStat StatField.fMessagesSent] else [])),
      e.isMutateStat = true := by
  intro e he
  cases ok
  · simp at he
    rcases he with rfl | rfl <;> rfl
  · simp at he
    rcases he with rfl | rfl | rfl <;> rfl

/-- The post-lookup events of the burst message callback are all entry
mutations. -/
lemma burst_rest_mutates (len : Nat) (sendOk : Nat → Bool) :
    ∀ e ∈ ([LockEvent.mutateStat StatField.fMessagesReceived,
            LockEvent.mutateStat StatField.fBytesReceived] ++
           (if 5 ≤ len then
              ((List.range 50).filter sendOk).map
                (fun _ => LockEvent.mutateStat StatField.fMessagesSent)
            else [])),
      e.isMutateStat = true := by
  intro e he
  rcases List.mem_append.mp he with h1 | h2
  · simp at h1
    rcases h1 with rfl | rfl <;> rfl
  · split at h2
    · simp only [List.mem_map] at h2
      obtain ⟨a, _, rfl⟩ := h2
      rfl
    · simp at h2

/-- The post-lookup events of the server-channel open callback are all entry
mutations. -/
lemma serverOpen_rest_mutates (test : String) (sendOk : Nat → Bool) :
    ∀ e ∈ ([LockEvent.mutateStat StatField.fOpened] ++
           (if test = "server-creates-dc" then
              [LockEvent.mutateStat StatField.fMessagesSent]
            else if test = "server-sends-binary" then
              [LockEvent.mutateStat StatField.fMessagesSent]
            else if test = "burst" then
              ((List.range 50).filter sendOk).map
                (fun _ => LockEvent.mutateStat StatField.fMessagesSent)
            else [])),
      e.isMutateStat = true := by
  intro e he
  rcases List.mem_append.mp he with h1 | h2
  · simp at h1
    subst h1
    rfl
  · split at h2
    · simp at h2
      subst h2
      rfl
    · split at h2
      · simp at h2
        subst h2
        rfl
      · split at h2
        · simp only [List.mem_map] at h2
          obtain ⟨a, _, rfl⟩ := h2
          rfl
        · simp at h2

/-- The post-lookup events of the remote-channel callback are all entry
mutations. -/
lemma dataChannel_rest_mutates :
    ∀ e ∈ [LockEvent.mutateStat StatField.fOpened], e.isMutateStat = true := by
  intro e he
  simp at he
  subst he
  rfl

/-- C3, counterexample: in the echo callback's trace the messagesReceived,
bytesReceived and messagesSent mutations run after findOrCreateStats has
released the statistics mutex, so not every stats mutation happens with the
mutex held. -/
theorem C3_counterexample : ¬ statMutationsHeld (echoTrace "browser-ch" true) := by
  unfold statMutationsHeld
  decide

/-- C3, amended: for every callback, the lookup-or-creation of the channel's
statistics entry runs while the statistics mutex is held, but every mutation
of the entry's counters and opened flag runs through the returned pointer
after the mutex has been released. -/
theorem C3_mutations_after_release (name test : String) (ok : Bool) (len : Nat)
    (sendOk : Nat → Bool) :
    (lookupsHeld (echoTrace name ok) ∧ statMutationsUnlocked (echoTrace name ok)) ∧
    (lookupsHeld (burstMsgTrace name len sendOk) ∧
      statMutationsUnlocked (burstMsgTrace name len sendOk)) ∧
    (lookupsHeld (serverOpenTrace name test sendOk) ∧
      statMutationsUnlocked (serverOpenTrace name test sendOk)) ∧
    (lookupsHeld (dataChannelTrace name) ∧ statMutationsUnlocked (dataChannelTrace name)) :=
  ⟨callback_locking name _ (echo_rest_mutates ok),
   callback_locking name _ (burst_rest_mutates len sendOk),
   callback_locking name _ (serverOpen_rest_mutates test sendOk),
   callback_locking name _ dataChannel_rest_mutates⟩

end DcTestServer
